import Mathlib

/-!
Shallow embedding of the ion-python-benchmark-cli repository
(src/amazon/ionbenchmark/ion_python_benchmark_cli.py and
src/amazon/ionbenchmark/API.py), with theorems settling the frozen
claims about its specification.

Modelling choices:
* Timing is nondeterministic, so a `TimeitOracle` supplies the value
  that `timeit.timeit(stmt, setup, number)` returns for each call.
* Rationals stand for Python floats; the format helpers model the
  decimal rendering of the exact value.
* Python exceptions become `Except PyError`; an uncaught exception
  terminates the interpreter with exit status 1 and nothing further is
  printed, while a run that completes exits with status 0.
* Side-effect order (tracemalloc start/stop, warm-ups, timed runs,
  printing) is embedded separately as a concrete event trace read off
  the statement order of the source.
-/

namespace IonBench

/-- API.SIMPLE_ION.value (src/amazon/ionbenchmark/API.py line 7). -/
def API.SIMPLE_ION : String := "simpleIon"

/-- API.ITERATOR.value (src/amazon/ionbenchmark/API.py line 8). -/
def API.ITERATOR : String := "iterator"

/-- API.NON_BLOCKING.value (src/amazon/ionbenchmark/API.py line 9). -/
def API.NON_BLOCKING : String := "nonBlocking"

/-- BYTES_TO_MB = 1024 * 1024 (ion_python_benchmark_cli.py line 58). -/
def BYTES_TO_MB : ℕ := 1024 * 1024

/-- How a Python bool renders inside an f-string: True or False. -/
def pyBool (b : Bool) : String := if b then "True" else "False"

/-- generate_simpleion_load_test_code (lines 61-62): builds the timed
statement string by f-string interpolation of the file path and the two
bool flags. -/
def generate_simpleion_load_test_code (file : String) (single_value emit_bare_values : Bool) : String :=
  "with open(\"" ++ file ++ "\", \"br\") as fp: ion.load(fp, single_value=" ++ pyBool single_value ++ ", emit_bare_values=" ++ pyBool emit_bare_values ++ ");"

/-- generate_simpleion_load_setup (lines 65-69): the setup string is the
simpleion import, and when gc is requested the gc import plus an
explicit gc.enable() call are appended. -/
def generate_simpleion_load_setup (gc : Bool) : String :=
  let rtn := "import amazon.ion.simpleion as ion"
  if gc then rtn ++ "; import gc; gc.enable();" else rtn

/-- The file-size computation of line 73:
Path(file).stat().st_size / BYTES_TO_MB, over the byte length. -/
def file_size_MB (nbytes : ℕ) : ℚ := (nbytes : ℚ) / (BYTES_TO_MB : ℚ)

/-- Oracle for timeit.timeit: maps (stmt, setup, number) to the elapsed
seconds that call reports.  Timing is nondeterministic, so every theorem
quantifies over the oracle. -/
structure TimeitOracle where
  run : String → String → ℕ → ℚ

/-- The Python exceptions the embedded code paths can raise. -/
inductive PyError
  | exceptionMsg : String → PyError
  | zeroDivisionError : PyError
  | typeErrorUnpackNone : PyError
  | fileNotFoundError : PyError
  deriving DecidableEq

/-- read_micro_benchmark_simpleion (lines 72-93).  `fsize` is the byte
length of the input file as the Path(file).stat() call observes it
(`none` means the file is absent, in which case stat raises
FileNotFoundError).  The three warm-up timeit calls run first with their
results discarded; then each timed total is divided by `iterations`,
which raises ZeroDivisionError when `iterations` is 0 (a Python float
divided by integer 0). -/
def read_micro_benchmark_simpleion (oracle : TimeitOracle) (iterations warmups : ℕ)
    (fsize : Option ℕ) (file : String) : Except PyError (ℚ × ℚ × ℚ × ℚ) :=
  match fsize with
  | none => .error .fileNotFoundError
  | some nbytes =>
    let file_size : ℚ := file_size_MB nbytes
    let setup_without_gc := generate_simpleion_load_setup false
    let setup_with_gc := generate_simpleion_load_setup true
    let test_code := generate_simpleion_load_test_code file false false
    let test_code_without_wrapper := generate_simpleion_load_test_code file false true
    let _warm1 := oracle.run test_code setup_with_gc warmups
    let _warm2 := oracle.run test_code setup_without_gc warmups
    let _warm3 := oracle.run test_code_without_wrapper setup_without_gc warmups
    if iterations = 0 then .error .zeroDivisionError
    else
      let result_with_gc := oracle.run test_code setup_with_gc iterations / (iterations : ℚ)
      let result_without_gc := oracle.run test_code setup_without_gc iterations / (iterations : ℚ)
      let result_with_raw_value := oracle.run test_code_without_wrapper setup_without_gc iterations / (iterations : ℚ)
      .ok (file_size, result_with_gc, result_without_gc, result_with_raw_value)

/-- read_micro_benchmark_iterator (lines 96-97): the body is `pass`, so
the call returns None. -/
def read_micro_benchmark_iterator (_iterations _warmups : ℕ) (_file : String) :
    Option (ℚ × ℚ × ℚ × ℚ) := none

/-- read_micro_benchmark_non_blocking (lines 100-101): the body is
`pass`, so the call returns None. -/
def read_micro_benchmark_non_blocking (_iterations _warmups : ℕ) (_file : String) :
    Option (ℚ × ℚ × ℚ × ℚ) := none

/-- garbage_collection_time = result_with_gc - result_without_gc
(line 116). -/
def garbage_collection_time (result_with_gc result_without_gc : ℚ) : ℚ :=
  result_with_gc - result_without_gc

/-- conversion_time = result_without_gc - result_with_raw_value
(line 117). -/
def conversion_time (result_without_gc result_with_raw_value : ℚ) : ℚ :=
  result_without_gc - result_with_raw_value

/-- Pads a number below 10 with a leading zero (two-digit rendering). -/
def pad2 (n : ℕ) : String := if n < 10 then "0" ++ toString n else toString n

/-- Round-half-even (banker) rounding of the fraction a / b for b ≠ 0,
in integer arithmetic: the rounding Python string formatting applies to
the decimal expansion. -/
def roundHalfEvenNat (a b : ℕ) : ℕ :=
  let d := a / b
  let r := a % b
  if 2 * r < b then d
  else if b < 2 * r then d + 1
  else if d % 2 = 0 then d else d + 1

/-- digitsLoop fuel n: the number of base-10 digits of n (0 for n = 0),
exact whenever fuel ≥ n. -/
def digitsLoop : ℕ → ℕ → ℕ
  | 0, _ => 0
  | _ + 1, 0 => 0
  | fuel + 1, n + 1 => digitsLoop fuel ((n + 1) / 10) + 1

/-- negExpLoop fuel p q: the least j with p * 10 ^ j ≥ q, exact for
1 ≤ p and fuel ≥ q. -/
def negExpLoop : ℕ → ℕ → ℕ → ℕ
  | 0, _, _ => 0
  | fuel + 1, p, q => if q ≤ p then 0 else negExpLoop fuel (p * 10) q + 1

/-- Floor of log base 10 of the positive fraction p / q, from digit
counts of numerator and denominator. -/
def fracLog10 (p q : ℕ) : ℤ :=
  if q ≤ p then (digitsLoop (p / q) (p / q) : ℤ) - 1
  else -(negExpLoop q p q : ℤ)

/-- The two-decimal mantissa of p / q scaled by 100: round-half-even of
(p / q) * 100 / 10 ^ e, in integer arithmetic. -/
def mantissa100 (p q : ℕ) (e : ℤ) : ℕ :=
  if 0 ≤ e then roundHalfEvenNat (p * 100) (q * 10 ^ e.toNat)
  else roundHalfEvenNat (p * 100 * 10 ^ (-e).toNat) q

/-- Models the Python two-significant-decimal scientific format (the
.2e format spec) applied to the exact rational value: mantissa with two
fractional digits, rounded half-even, and a signed two-digit exponent.
Computed on the reduced numerator and denominator so that every step is
integer arithmetic. -/
def sciFormat2 (x : ℚ) : String :=
  if x.num = 0 then "0.00e+00"
  else
    let sign := if x.num < 0 then "-" else ""
    let p := x.num.natAbs
    let q := x.den
    let e := fracLog10 p q
    let m := mantissa100 p q e
    let em := if 1000 ≤ m then (e + 1, (100 : ℕ)) else (e, m)
    let e2 := em.1
    let m2 := em.2
    let mantissa := toString (m2 / 100) ++ "." ++ pad2 (m2 % 100)
    let expSign := if e2 < 0 then "-" else "+"
    sign ++ mantissa ++ "e" ++ expSign ++ pad2 e2.natAbs

/-- Models the Python two-decimal percent format (the .2% format spec)
applied to the exact rational value, in integer arithmetic on the
reduced numerator and denominator. -/
def pctFormat2 (x : ℚ) : String :=
  let sign := if x.num < 0 then "-" else ""
  let n := roundHalfEvenNat (x.num.natAbs * 10000) x.den
  sign ++ toString (n / 100) ++ "." ++ pad2 (n % 100) ++ "%"

/-- One cell of the printed report row: Python passes either a formatted
string or the bare int literal 0 to read_generate_report. -/
inductive Cell
  | str : String → Cell
  | int : ℤ → Cell
  deriving DecidableEq

/-- The garbage_collection_time cell (line 121): formatted when the
difference is positive, the int literal 0 otherwise. -/
def gc_time_cell (result_with_gc result_without_gc : ℚ) : Cell :=
  if 0 < garbage_collection_time result_with_gc result_without_gc then
    .str (sciFormat2 (garbage_collection_time result_with_gc result_without_gc))
  else .int 0

/-- The garbage-collection percentage cell (line 122): the difference
divided by result_with_gc when positive, the string 0% otherwise. -/
def gc_pct_cell (result_with_gc result_without_gc : ℚ) : Cell :=
  if 0 < garbage_collection_time result_with_gc result_without_gc then
    .str (pctFormat2 (garbage_collection_time result_with_gc result_without_gc / result_with_gc))
  else .str "0%"

/-- The conversion_time cell (line 123); the first sample is taken for
signature symmetry with the percentage cell and is unused here, as in
the source expression. -/
def conversion_time_cell (_result_with_gc result_without_gc result_with_raw_value : ℚ) : Cell :=
  if 0 < conversion_time result_without_gc result_with_raw_value then
    .str (sciFormat2 (conversion_time result_without_gc result_with_raw_value))
  else .int 0

/-- The conversion percentage cell (line 124): the difference divided by
result_with_gc when positive, the string 0% otherwise. -/
def conversion_pct_cell (result_with_gc result_without_gc result_with_raw_value : ℚ) : Cell :=
  if 0 < conversion_time result_without_gc result_with_raw_value then
    .str (pctFormat2 (conversion_time result_without_gc result_with_raw_value / result_with_gc))
  else .str "0%"

/-- The numeric overhead value the garbage_collection_time cell renders:
the raw difference when positive and 0 otherwise (line 121). -/
def reported_gc_overhead (result_with_gc result_without_gc : ℚ) : ℚ :=
  if 0 < garbage_collection_time result_with_gc result_without_gc then
    garbage_collection_time result_with_gc result_without_gc
  else 0

/-- The numeric overhead value the conversion_time cell renders
(line 123). -/
def reported_conversion_overhead (result_without_gc result_with_raw_value : ℚ) : ℚ :=
  if 0 < conversion_time result_without_gc result_with_raw_value then
    conversion_time result_without_gc result_with_raw_value
  else 0

/-- The ratio the garbage-collection percentage cell renders (line 122):
difference over result_with_gc when positive, 0 otherwise. -/
def reported_gc_overhead_ratio (result_with_gc result_without_gc : ℚ) : ℚ :=
  if 0 < garbage_collection_time result_with_gc result_without_gc then
    garbage_collection_time result_with_gc result_without_gc / result_with_gc
  else 0

/-- The ratio the conversion percentage cell renders (line 124):
difference over result_with_gc when positive, 0 otherwise. -/
def reported_conversion_overhead_ratio (result_with_gc result_without_gc result_with_raw_value : ℚ) : ℚ :=
  if 0 < conversion_time result_without_gc result_with_raw_value then
    conversion_time result_without_gc result_with_raw_value / result_with_gc
  else 0

/-- The row read_generate_report prints (lines 118-136), one cell per
column of the table. -/
structure ReportRow where
  file_size : Cell
  total_time : Cell
  execution_time : Cell
  garbage_collection_time : Cell
  gc_time_percentage : Cell
  conversion_time : Cell
  wrapper_time_percentage : Cell
  memory_usage_peak : Cell
  deriving DecidableEq

/-- Which read micro-benchmark function the api dispatch selects
(lines 145-153). -/
inductive BenchChoice
  | simpleIon
  | iterator
  | nonBlocking
  deriving DecidableEq

/-- The api dispatch of lines 145-156: a missing or empty api string is
falsy in Python, so `not api` selects simpleIon for both; otherwise the
three enum values are compared in order and anything else raises
Exception with the interpolated message. -/
def select_read_function (api : Option String) : Except PyError BenchChoice :=
  match api with
  | none => .ok .simpleIon
  | some a =>
    if a = "" then .ok .simpleIon
    else if a = API.SIMPLE_ION then .ok .simpleIon
    else if a = API.ITERATOR then .ok .iterator
    else if a = API.NON_BLOCKING then .ok .nonBlocking
    else .error (.exceptionMsg ("Invalid API option " ++ a ++ "."))

/-- Runs the selected micro-benchmark function.  The iterator and
non-blocking placeholders return None; the simpleion path returns the
four-tuple (or propagates its exception). -/
def run_selected (choice : BenchChoice) (oracle : TimeitOracle) (iterations warmups : ℕ)
    (fsize : Option ℕ) (file : String) : Except PyError (Option (ℚ × ℚ × ℚ × ℚ)) :=
  match choice with
  | .simpleIon => (read_micro_benchmark_simpleion oracle iterations warmups fsize file).map some
  | .iterator => .ok (read_micro_benchmark_iterator iterations warmups file)
  | .nonBlocking => .ok (read_micro_benchmark_non_blocking iterations warmups file)

/-- read_micro_benchmark_and_profiling (lines 104-125).  `tracedPeak` is
the peak traced byte count tracemalloc.get_traced_memory()[1] observes.
A None file raises the Exception of line 106; a None result from the
selected function makes the four-name tuple unpacking on lines 111-112
raise TypeError; otherwise the report row is assembled from the format
expressions of lines 118-125. -/
def read_micro_benchmark_and_profiling (choice : BenchChoice) (oracle : TimeitOracle)
    (tracedPeak : ℕ) (iterations warmups : ℕ) (fsize : Option ℕ) (file : Option String) :
    Except PyError ReportRow :=
  match file with
  | none => .error (.exceptionMsg "Invalid file: file can not be none.")
  | some f =>
    match run_selected choice oracle iterations warmups fsize f with
    | .error e => .error e
    | .ok none => .error .typeErrorUnpackNone
    | .ok (some (file_size, result_with_gc, result_without_gc, result_with_raw_value)) =>
      let memory_usage_peak : ℚ := (tracedPeak : ℚ) / (BYTES_TO_MB : ℚ)
      .ok ⟨.str (sciFormat2 file_size),
           .str (sciFormat2 result_with_gc),
           .str (sciFormat2 result_without_gc),
           gc_time_cell result_with_gc result_without_gc,
           gc_pct_cell result_with_gc result_without_gc,
           conversion_time_cell result_with_gc result_without_gc result_with_raw_value,
           conversion_pct_cell result_with_gc result_without_gc result_with_raw_value,
           .str (sciFormat2 memory_usage_peak)⟩

/-- What a completed CLI invocation leaves on stdout: the report table,
a not-supported notice, or nothing (no command branch taken). -/
inductive CliOutcome
  | reportPrinted : ReportRow → CliOutcome
  | noticePrinted : String → CliOutcome
  | nothing : CliOutcome
  deriving DecidableEq

/-- The docopt argument dictionary as ion_python_benchmark_cli reads it:
the three command flags, the optional positional input file, the
optional api string, and the already-int-converted counts. -/
structure Arguments where
  read : Bool
  write : Bool
  generate : Bool
  input_file : Option String
  api : Option String
  iterations : ℕ
  warmups : ℕ

/-- ion_python_benchmark_cli (lines 139-161).  The input-file guard of
lines 140-141 runs first for every command, so a missing input file
raises before any branch is reached; the read branch dispatches on the
api and runs the profiling wrapper; the write and generate branches
print their notices. -/
def ion_python_benchmark_cli (oracle : TimeitOracle) (tracedPeak : ℕ) (fsize : Option ℕ)
    (args : Arguments) : Except PyError CliOutcome :=
  match args.input_file with
  | none => .error (.exceptionMsg "Invalid input file")
  | some file =>
    if args.read then
      match select_read_function args.api with
      | .error e => .error e
      | .ok choice =>
        match read_micro_benchmark_and_profiling choice oracle tracedPeak args.iterations
            args.warmups fsize (some file) with
        | .error e => .error e
        | .ok row => .ok (.reportPrinted row)
    else if args.write then .ok (.noticePrinted "Write feature is not supported yet")
    else if args.generate then .ok (.noticePrinted "Generate feature is not supported yet")
    else .ok .nothing

/-- The process exit status of the __main__ entry: a run whose uncaught
exception propagates exits 1, a completed run exits 0. -/
def exit_code (r : Except PyError CliOutcome) : ℕ :=
  match r with
  | .error _ => 1
  | .ok _ => 0

/-- Whether the invocation completed with a report table printed. -/
def printed_report (r : Except PyError CliOutcome) : Bool :=
  match r with
  | .ok (.reportPrinted _) => true
  | _ => false

/-- The three measurement variants: A = gc enabled with wrapped values,
B = gc setup omitted with wrapped values, C = gc setup omitted with raw
(bare) values. -/
inductive Variant
  | withGC
  | withoutGC
  | rawValue
  deriving DecidableEq

/-- Side effects of the benchmark pipeline, used to state in what order
the source performs them. -/
inductive Event
  | tracemallocStart
  | warmup : Variant → Event
  | timed : Variant → Event
  | getTracedMemory
  | tracemallocStop
  | printReport
  deriving DecidableEq

/-- The six timeit calls of read_micro_benchmark_simpleion in statement
order (lines 80-89): three warm-ups, then the three timed runs. -/
def read_micro_benchmark_simpleion_events : List Event :=
  [.warmup .withGC, .warmup .withoutGC, .warmup .rawValue,
   .timed .withGC, .timed .withoutGC, .timed .rawValue]

/-- The event trace of read_micro_benchmark_and_profiling on the
simpleion path: tracemalloc.start (line 110), the benchmark call
(lines 111-112), get_traced_memory (line 113), tracemalloc.stop
(line 114), and the report print (lines 118-125). -/
def read_micro_benchmark_and_profiling_events : List Event :=
  [Event.tracemallocStart] ++ read_micro_benchmark_simpleion_events ++
    [Event.getTracedMemory, Event.tracemallocStop, Event.printReport]

/-- The events that fall strictly between the tracemalloc start and the
tracemalloc stop in the profiling trace: the region the allocation peak
is measured over. -/
def tracemalloc_tracked_events : List Event :=
  ((read_micro_benchmark_and_profiling_events.dropWhile
      (fun e => e != Event.tracemallocStart)).drop 1).takeWhile
    (fun e => e != Event.tracemallocStop)

/-- C1: for every read benchmark run, the derived overheads the report
renders equal the spec step-4 formulas over the three mean timing
samples A (with gc), B (without gc), C (raw values): the reported
gc overhead is max 0 (A - B), the reported conversion overhead is
max 0 (B - C), and both percentage ratios use sample A as the
denominator: max 0 (A - B) / A and max 0 (B - C) / A. -/
theorem overhead_formulas_match_spec : ∀ A B C : ℚ,
    reported_gc_overhead A B = max 0 (A - B) ∧
    reported_conversion_overhead B C = max 0 (B - C) ∧
    reported_gc_overhead_ratio A B = max 0 (A - B) / A ∧
    reported_conversion_overhead_ratio A B C = max 0 (B - C) / A := by
  intro A B C
  unfold reported_gc_overhead reported_conversion_overhead reported_gc_overhead_ratio
    reported_conversion_overhead_ratio garbage_collection_time conversion_time
  refine ⟨?_, ?_, ?_, ?_⟩
  · by_cases h : 0 < A - B
    · rw [if_pos h, max_eq_right h.le]
    · rw [if_neg h, max_eq_left (not_lt.mp h)]
  · by_cases h : 0 < B - C
    · rw [if_pos h, max_eq_right h.le]
    · rw [if_neg h, max_eq_left (not_lt.mp h)]
  · by_cases h : 0 < A - B
    · rw [if_pos h, max_eq_right h.le]
    · rw [if_neg h, max_eq_left (not_lt.mp h), zero_div]
  · by_cases h : 0 < B - C
    · rw [if_pos h, max_eq_right h.le]
    · rw [if_neg h, max_eq_left (not_lt.mp h), zero_div]

/-- C2: for every combination of timing samples, each of the two
clamping implications holds independently — if the gc difference
computes as non-positive its cell is the int literal 0 (not the string
0.00e+00) and its percentage cell is the literal string 0%, and likewise
for the conversion difference — and the numeric values the overhead
cells render are never negative. -/
theorem clamping_law (result_with_gc result_without_gc result_with_raw_value : ℚ) :
    (garbage_collection_time result_with_gc result_without_gc ≤ 0 →
      gc_time_cell result_with_gc result_without_gc = Cell.int 0 ∧
      gc_time_cell result_with_gc result_without_gc ≠ Cell.str "0.00e+00" ∧
      gc_pct_cell result_with_gc result_without_gc = Cell.str "0%") ∧
    (conversion_time result_without_gc result_with_raw_value ≤ 0 →
      conversion_time_cell result_with_gc result_without_gc result_with_raw_value = Cell.int 0 ∧
      conversion_time_cell result_with_gc result_without_gc result_with_raw_value ≠ Cell.str "0.00e+00" ∧
      conversion_pct_cell result_with_gc result_without_gc result_with_raw_value = Cell.str "0%") ∧
    0 ≤ reported_gc_overhead result_with_gc result_without_gc ∧
    0 ≤ reported_conversion_overhead result_without_gc result_with_raw_value := by
  refine ⟨fun hg => ?_, fun hc => ?_, ?_, ?_⟩
  · have hg' : ¬ 0 < garbage_collection_time result_with_gc result_without_gc := not_lt.mpr hg
    refine ⟨?_, ?_, ?_⟩
    · unfold gc_time_cell; rw [if_neg hg']
    · unfold gc_time_cell; rw [if_neg hg']; exact fun h => Cell.noConfusion h
    · unfold gc_pct_cell; rw [if_neg hg']
  · have hc' : ¬ 0 < conversion_time result_without_gc result_with_raw_value := not_lt.mpr hc
    refine ⟨?_, ?_, ?_⟩
    · unfold conversion_time_cell; rw [if_neg hc']
    · unfold conversion_time_cell; rw [if_neg hc']; exact fun h => Cell.noConfusion h
    · unfold conversion_pct_cell; rw [if_neg hc']
  · unfold reported_gc_overhead
    by_cases h : 0 < garbage_collection_time result_with_gc result_without_gc
    · rw [if_pos h]; exact h.le
    · rw [if_neg h]
  · unfold reported_conversion_overhead
    by_cases h : 0 < conversion_time result_without_gc result_with_raw_value
    · rw [if_pos h]; exact h.le
    · rw [if_neg h]

/-- Witness for C2 at two mixed-sign sample combinations: A = 1, B = 2,
C = 1 clamps only the gc side (conversion difference is the positive 1),
and A = 2, B = 1, C = 2 clamps only the conversion side (gc difference
is the positive 1). -/
theorem clamping_law_witness :
    (garbage_collection_time 1 2 ≤ 0 ∧
      gc_time_cell 1 2 = Cell.int 0 ∧ gc_pct_cell 1 2 = Cell.str "0%") ∧
    (conversion_time 1 2 ≤ 0 ∧
      conversion_time_cell 2 1 2 = Cell.int 0 ∧ conversion_pct_cell 2 1 2 = Cell.str "0%") :=
  have hg : garbage_collection_time 1 2 ≤ 0 := by norm_num [garbage_collection_time]
  have hc : conversion_time 1 2 ≤ 0 := by norm_num [conversion_time]
  have h1 := (clamping_law 1 2 1).1 hg
  have h2 := (clamping_law 2 1 2).2.1 hc
  ⟨⟨hg, h1.1, h1.2.2⟩, ⟨hc, h2.1, h2.2.2⟩⟩

/-- C3 counterexample: with samples A = 1, B = 3, C = 0 — all
non-negative and A positive — the conversion percentage ratio the
report renders is 3, which is not in the interval [0, 1], refuting the
claim that both percentage ratios always lie in [0, 1]. -/
theorem pct_range_counterexample :
    (0 : ℚ) < 1 ∧ (0 : ℚ) ≤ 3 ∧ (0 : ℚ) ≤ 0 ∧
    reported_conversion_overhead_ratio 1 3 0 = 3 ∧
    ¬ reported_conversion_overhead_ratio 1 3 0 ≤ 1 := by
  norm_num [reported_conversion_overhead_ratio, conversion_time]

/-- C3 amended: for samples A > 0, B ≥ 0, C ≥ 0 the reported
gc-overhead ratio always lies in [0, 1] and the reported
conversion-overhead ratio is always non-negative; the
conversion-overhead ratio is bounded by 1 only under the additional
hypothesis B ≤ A + C, without which it can exceed 1. -/
theorem pct_range_amended (A B C : ℚ) (hA : 0 < A) (hB : 0 ≤ B) (hC : 0 ≤ C) :
    0 ≤ reported_gc_overhead_ratio A B ∧ reported_gc_overhead_ratio A B ≤ 1 ∧
    0 ≤ reported_conversion_overhead_ratio A B C ∧
    (B ≤ A + C → reported_conversion_overhead_ratio A B C ≤ 1) := by
  unfold reported_gc_overhead_ratio reported_conversion_overhead_ratio
    garbage_collection_time conversion_time
  refine ⟨?_, ?_, ?_, fun hBAC => ?_⟩
  · by_cases h : 0 < A - B
    · rw [if_pos h]; exact div_nonneg h.le hA.le
    · rw [if_neg h]
  · by_cases h : 0 < A - B
    · rw [if_pos h]; exact (div_le_one hA).mpr (sub_le_self A hB)
    · rw [if_neg h]; exact zero_le_one
  · by_cases h : 0 < B - C
    · rw [if_pos h]; exact div_nonneg h.le hA.le
    · rw [if_neg h]
  · by_cases h : 0 < B - C
    · rw [if_pos h]
      exact (div_le_one hA).mpr (sub_le_iff_le_add.mpr hBAC)
    · rw [if_neg h]; exact zero_le_one

/-- Witness for the amended C3: at A = 2, B = 1, C = 1 both ratios are
in [0, 1] with the conversion bound discharged by 1 ≤ 2 + 1, and at
A = 1, B = 3, C = 0 — where B exceeds A + C, the counterexample input —
the gc ratio is still bounded by 1. -/
theorem pct_range_amended_witness :
    ((0 : ℚ) < 2 ∧ (0 : ℚ) ≤ 1 ∧ (0 : ℚ) ≤ 1 ∧ (1 : ℚ) ≤ 2 + 1) ∧
    (0 ≤ reported_gc_overhead_ratio 2 1 ∧ reported_gc_overhead_ratio 2 1 ≤ 1 ∧
     0 ≤ reported_conversion_overhead_ratio 2 1 1 ∧
     reported_conversion_overhead_ratio 2 1 1 ≤ 1) ∧
    ((0 : ℚ) < 1 ∧ (0 : ℚ) ≤ 3 ∧ (0 : ℚ) ≤ 0 ∧
     reported_gc_overhead_ratio 1 3 ≤ 1) :=
  have h1 := pct_range_amended 2 1 1 (by norm_num) (by norm_num) (by norm_num)
  have h2 := pct_range_amended 1 3 0 (by norm_num) (by norm_num) (by norm_num)
  ⟨⟨by norm_num, by norm_num, by norm_num, by norm_num⟩,
   ⟨h1.1, h1.2.1, h1.2.2.1, h1.2.2.2 (by norm_num)⟩,
   ⟨by norm_num, by norm_num, by norm_num, h2.2.1⟩⟩

/-- C10: the setup string generated with gc disabled is exactly the
simpleion import, it contains no gc-disabling instruction, and only the
gc-enabled variant appends the explicit gc.enable() call. -/
theorem gc_setup_strings :
    generate_simpleion_load_setup false = "import amazon.ion.simpleion as ion" ∧
    ¬ "gc.disable".toList <:+: (generate_simpleion_load_setup false).toList ∧
    ¬ "gc".toList <:+: "import amazon.ion.simpleion as ion".toList ∧
    generate_simpleion_load_setup true
      = generate_simpleion_load_setup false ++ "; import gc; gc.enable();" ∧
    "gc.enable()".toList <:+: (generate_simpleion_load_setup true).toList ∧
    ¬ "gc.disable".toList <:+: (generate_simpleion_load_setup true).toList := by
  refine ⟨rfl, ?_, ?_, rfl, ?_, ?_⟩ <;> decide

/-- C4: a read invocation with iterations = 0 on an existing input file
fails — the per-iteration division raises ZeroDivisionError, the
concrete form of the invalid-argument failure the spec assigns to zero
iterations — and no report table is printed. -/
theorem zero_iterations_fails :
    ∀ (oracle : TimeitOracle) (tracedPeak nbytes warmups : ℕ) (f : String),
    ion_python_benchmark_cli oracle tracedPeak (some nbytes)
        ⟨true, false, false, some f, none, 0, warmups⟩
      = Except.error PyError.zeroDivisionError ∧
    (∀ row, ion_python_benchmark_cli oracle tracedPeak (some nbytes)
        ⟨true, false, false, some f, none, 0, warmups⟩
      ≠ Except.ok (CliOutcome.reportPrinted row)) ∧
    exit_code (ion_python_benchmark_cli oracle tracedPeak (some nbytes)
        ⟨true, false, false, some f, none, 0, warmups⟩) = 1 := by
  intro oracle tracedPeak nbytes warmups f
  refine ⟨rfl, ?_, rfl⟩
  intro row h
  exact Except.noConfusion h

/-- C5 counterexample: a concrete read invocation with api nonBlocking
does crash — the placeholder returns None and the tuple unpacking raises
TypeError — rather than yielding a printed not-supported notice, so the
claimed no-crash notice outcome is refuted (no table is printed
either). -/
theorem non_blocking_crashes_counterexample :
    ion_python_benchmark_cli ⟨fun _ _ _ => 0⟩ 0 (some 1)
        ⟨true, false, false, some "f", some "nonBlocking", 10, 10⟩
      = Except.error PyError.typeErrorUnpackNone ∧
    (∀ o, ion_python_benchmark_cli ⟨fun _ _ _ => 0⟩ 0 (some 1)
        ⟨true, false, false, some "f", some "nonBlocking", 10, 10⟩
      ≠ Except.ok o) := by
  refine ⟨rfl, ?_⟩
  intro o h
  exact Except.noConfusion h

/-- C5 amended: every read invocation with api nonBlocking (and likewise
iterator) fails with the TypeError raised when the profiling wrapper
unpacks the placeholder functions None result; no notice and no report
table are printed, so no fabricated data appears but the outcome is a
crash, not a printed not-implemented notice. -/
theorem non_blocking_unpack_error :
    ∀ (oracle : TimeitOracle) (tracedPeak : ℕ) (fsize : Option ℕ) (f : String)
      (iterations warmups : ℕ),
    ion_python_benchmark_cli oracle tracedPeak fsize
        ⟨true, false, false, some f, some "nonBlocking", iterations, warmups⟩
      = Except.error PyError.typeErrorUnpackNone ∧
    ion_python_benchmark_cli oracle tracedPeak fsize
        ⟨true, false, false, some f, some "iterator", iterations, warmups⟩
      = Except.error PyError.typeErrorUnpackNone ∧
    (∀ o, ion_python_benchmark_cli oracle tracedPeak fsize
        ⟨true, false, false, some f, some "nonBlocking", iterations, warmups⟩
      ≠ Except.ok o) := by
  intro oracle tracedPeak fsize f iterations warmups
  refine ⟨rfl, rfl, ?_⟩
  intro o h
  exact Except.noConfusion h

/-- C6: evaluating the CLI at its actual write and generate inputs
(docopt gives those commands no input file) shows the input-file guard
raises Exception with message Invalid input file before the notice
branches are reached, so the process exits 1 and no notice is printed —
the claimed notice-plus-exit-0 behaviour does not happen. -/
theorem write_generate_raise_invalid_input_file :
    ∀ (oracle : TimeitOracle) (tracedPeak : ℕ) (fsize : Option ℕ) (iterations warmups : ℕ),
    ion_python_benchmark_cli oracle tracedPeak fsize
        ⟨false, true, false, none, none, iterations, warmups⟩
      = Except.error (PyError.exceptionMsg "Invalid input file") ∧
    ion_python_benchmark_cli oracle tracedPeak fsize
        ⟨false, false, true, none, none, iterations, warmups⟩
      = Except.error (PyError.exceptionMsg "Invalid input file") ∧
    exit_code (ion_python_benchmark_cli oracle tracedPeak fsize
        ⟨false, true, false, none, none, iterations, warmups⟩) = 1 ∧
    (∀ s, ion_python_benchmark_cli oracle tracedPeak fsize
        ⟨false, true, false, none, none, iterations, warmups⟩
      ≠ Except.ok (CliOutcome.noticePrinted s)) := by
  intro oracle tracedPeak fsize iterations warmups
  refine ⟨rfl, rfl, rfl, ?_⟩
  intro s h
  exact Except.noConfusion h

/-- C7: the reported file size is exactly the byte length divided by
1048576, independent of any timing, and a file of exactly 10485760
bytes renders as 1.00e+01. -/
theorem file_size_exact :
    (∀ nbytes : ℕ, file_size_MB nbytes = (nbytes : ℚ) / 1048576) ∧
    file_size_MB 10485760 = 10 ∧
    sciFormat2 (file_size_MB 10485760) = "1.00e+01" := by
  have hb : ((BYTES_TO_MB : ℕ) : ℚ) = 1048576 := by norm_num [BYTES_TO_MB]
  have h10 : file_size_MB 10485760 = 10 := by
    rw [file_size_MB, hb]; norm_num
  refine ⟨fun nbytes => by rw [file_size_MB, hb], h10, ?_⟩
  rw [h10]
  decide

/-- C8 counterexample: a read invocation whose api value is the empty
string — which is not one of the three enum values — does not fail: the
falsy check treats it as the default, the simpleIon benchmark runs, a
report table is printed, and the process exits 0 rather than non-zero. -/
theorem empty_api_counterexample :
    ("" ≠ API.SIMPLE_ION ∧ "" ≠ API.ITERATOR ∧ "" ≠ API.NON_BLOCKING) ∧
    select_read_function (some "") = Except.ok BenchChoice.simpleIon ∧
    printed_report (ion_python_benchmark_cli ⟨fun _ _ _ => 0⟩ 0 (some 0)
        ⟨true, false, false, some "f", some "", 1, 0⟩) = true ∧
    exit_code (ion_python_benchmark_cli ⟨fun _ _ _ => 0⟩ 0 (some 0)
        ⟨true, false, false, some "f", some "", 1, 0⟩) = 0 :=
  ⟨⟨by decide, by decide, by decide⟩, rfl, rfl, rfl⟩

/-- C8 amended: every read invocation whose api value is a non-empty
string other than the three enum values fails with the Exception whose
message interpolates the option, before any benchmark runs: no report
table is printed and the process exits non-zero.  An empty api string
is the one non-enum value exempted, being falsy and hence treated as
the simpleIon default. -/
theorem unknown_api_rejected (a : String) (h0 : a ≠ "") (h1 : a ≠ API.SIMPLE_ION)
    (h2 : a ≠ API.ITERATOR) (h3 : a ≠ API.NON_BLOCKING) :
    ∀ (oracle : TimeitOracle) (tracedPeak : ℕ) (fsize : Option ℕ) (f : String)
      (iterations warmups : ℕ),
    ion_python_benchmark_cli oracle tracedPeak fsize
        ⟨true, false, false, some f, some a, iterations, warmups⟩
      = Except.error (PyError.exceptionMsg ("Invalid API option " ++ a ++ ".")) ∧
    (∀ row, ion_python_benchmark_cli oracle tracedPeak fsize
        ⟨true, false, false, some f, some a, iterations, warmups⟩
      ≠ Except.ok (CliOutcome.reportPrinted row)) ∧
    exit_code (ion_python_benchmark_cli oracle tracedPeak fsize
        ⟨true, false, false, some f, some a, iterations, warmups⟩) = 1 := by
  intro oracle tracedPeak fsize f iterations warmups
  have hsel : select_read_function (some a)
      = Except.error (PyError.exceptionMsg ("Invalid API option " ++ a ++ ".")) := by
    show (if a = "" then Except.ok BenchChoice.simpleIon
      else if a = API.SIMPLE_ION then Except.ok BenchChoice.simpleIon
      else if a = API.ITERATOR then Except.ok BenchChoice.iterator
      else if a = API.NON_BLOCKING then Except.ok BenchChoice.nonBlocking
      else Except.error (PyError.exceptionMsg ("Invalid API option " ++ a ++ ".")))
      = Except.error (PyError.exceptionMsg ("Invalid API option " ++ a ++ "."))
    rw [if_neg h0, if_neg h1, if_neg h2, if_neg h3]
  have hcli : ion_python_benchmark_cli oracle tracedPeak fsize
      ⟨true, false, false, some f, some a, iterations, warmups⟩
      = Except.error (PyError.exceptionMsg ("Invalid API option " ++ a ++ ".")) := by
    show (match select_read_function (some a) with
      | Except.error e => Except.error e
      | Except.ok choice =>
        match read_micro_benchmark_and_profiling choice oracle tracedPeak iterations
            warmups fsize (some f) with
        | Except.error e => Except.error e
        | Except.ok row => Except.ok (CliOutcome.reportPrinted row))
      = Except.error (PyError.exceptionMsg ("Invalid API option " ++ a ++ "."))
    rw [hsel]
  refine ⟨hcli, ?_, ?_⟩
  · intro row h
    rw [hcli] at h
    exact Except.noConfusion h
  · rw [hcli]
    rfl

/-- Witness for the amended C8 at the concrete api value foo. -/
theorem unknown_api_rejected_witness :
    ("foo" ≠ "" ∧ "foo" ≠ API.SIMPLE_ION ∧ "foo" ≠ API.ITERATOR ∧
     "foo" ≠ API.NON_BLOCKING) ∧
    ion_python_benchmark_cli ⟨fun _ _ _ => 0⟩ 0 none
        ⟨true, false, false, some "f", some "foo", 1, 0⟩
      = Except.error (PyError.exceptionMsg "Invalid API option foo.") :=
  ⟨⟨by decide, by decide, by decide, by decide⟩,
   (unknown_api_rejected "foo" (by decide) (by decide) (by decide) (by decide)
      ⟨fun _ _ _ => 0⟩ 0 none "f" 1 0).1⟩

/-- C9 counterexample: in the profiling event trace the tracked region —
the events strictly between the tracemalloc start and stop — contains
all three warm-up runs and the timed runs of variants B and C, refuting
the claim that allocation tracking covers exactly the timed execution of
variant A and never the warm-ups. -/
theorem tracking_scope_counterexample :
    Event.warmup Variant.withGC ∈ tracemalloc_tracked_events ∧
    Event.warmup Variant.withoutGC ∈ tracemalloc_tracked_events ∧
    Event.warmup Variant.rawValue ∈ tracemalloc_tracked_events ∧
    Event.timed Variant.withoutGC ∈ tracemalloc_tracked_events ∧
    Event.timed Variant.rawValue ∈ tracemalloc_tracked_events ∧
    ¬ (∀ e ∈ tracemalloc_tracked_events, e = Event.timed Variant.withGC) := by
  refine ⟨?_, ?_, ?_, ?_, ?_, ?_⟩ <;> decide

/-- C9 amended: allocation tracking starts immediately before the single
benchmark-function call and stops immediately after the peak is read, so
the tracked region is the three warm-up executions followed by the timed
executions of all three variants and the peak read — rather than the
timed execution of variant A alone. -/
theorem tracking_scope_amended :
    read_micro_benchmark_and_profiling_events
      = Event.tracemallocStart ::
          (read_micro_benchmark_simpleion_events ++
            [Event.getTracedMemory, Event.tracemallocStop, Event.printReport]) ∧
    tracemalloc_tracked_events
      = read_micro_benchmark_simpleion_events ++ [Event.getTracedMemory] ∧
    ∀ v : Variant, Event.warmup v ∈ tracemalloc_tracked_events ∧
      Event.timed v ∈ tracemalloc_tracked_events := by
  refine ⟨rfl, by decide, ?_⟩
  intro v
  cases v <;> exact ⟨by decide, by decide⟩

end IonBench
